import Mathlib

/-!
Shallow embedding of `src/lib/core/replication.py` (the sqlmap replication
helper) and proofs about its contract.

Modelling conventions:
* Python strings are `String`; the f-string concatenations of the source are
  reproduced literally (apostrophes written as the escape \x27).
* The sqlite3 engine is an external collaborator: it is a parameter of type
  `Engine sigma` (a state-passing execution function that may fail with an
  `EngineError`).  `EngineError.operational` marks `sqlite3.OperationalError`,
  the only engine exception class the source catches.
* The collaborators `unsafeSQLIdentificatorNaming` (identifier sanitizer) and
  `safechardecode` (value decoding), which live in this repository outside
  `src/`, are abstract function parameters: every theorem holds for an
  arbitrary sanitizer/decoder, as the spec treats them as opaque contracts.
* A computation returns a `PyResult`: the Python return value (or the raised
  exception), the engine state after the call, and the trace of
  `(sql, parameters)` pairs actually handed to the engine cursor.
-/

/-- A SQL cell value bound as a query parameter (Python values passed to
`insert`); the module treats these as opaque payload. -/
inductive Value where
  | null
  | int (i : Int)
  | str (s : String)
  | blob (bs : List Nat)
deriving DecidableEq

/-- A sqlite3 engine-level exception.  `operational = true` models
`sqlite3.OperationalError` (the class named in the two `except` clauses of the
source); `operational = false` models any other sqlite3 exception class
(e.g. `IntegrityError`, `ProgrammingError`). -/
structure EngineError where
  operational : Bool
  msg : String
deriving DecidableEq

/-- A Python-level value returned by a call in this module: either `None`
(a function body that falls off its end) or the cursor-level result yielded by
`sqlite3.Cursor.execute`. -/
inductive PyVal where
  | none
  | cursor (rows : List (List Value))
deriving DecidableEq

/-- The exceptions that can escape this module: the three sqlmap domain
exception kinds, an uncaught sqlite3 engine exception propagating unwrapped,
and a Python runtime error (TypeError/ValueError raised by the interpreter
itself, e.g. iterating `None` or unpacking a non-pair). -/
inductive PyExc where
  | connError (msg : String)
  | genError (msg : String)
  | valError (msg : String)
  | engineExc (e : EngineError)
  | pyError (msg : String)
deriving DecidableEq

/-- The sequence of `(sql, parameters)` pairs handed to the engine cursor. -/
abbrev Trace := List (String × List Value)

/-- The abstract sqlite3 engine: from a state, a SQL text and bound
parameters, either a new state together with the cursor-level result, or an
engine exception. -/
def Engine (σ : Type) : Type :=
  σ → String → List Value → Except EngineError (σ × PyVal)

/-- Result of running one Python call of the module: the returned value or
raised exception, the engine state afterwards, and the trace of statements
that were handed to the engine. -/
structure PyResult (σ α : Type) where
  ret : Except PyExc α
  st : σ
  trace : Trace

/-- One element of the Python `columns` argument: either a string (a bare
column name) or a `(name, type)` pair. -/
inductive PyItem where
  | str (s : String)
  | pair (colname coltype : String)
deriving DecidableEq

/-- The Python `columns` argument itself, which may be `None`. -/
inductive PyColumns where
  | noneCols
  | items (l : List PyItem)
deriving DecidableEq

/-- Python truthiness of the `condition` argument of `select` (a `None` or a
string): `None` and the empty string are falsy. -/
def pyTruthy : Option String → Bool
  | Option.none => false
  | Option.some s => decide (s ≠ "")

/-- Python `len(columns)`: `len(None)` raises a TypeError, the length of a
list is its length. -/
def pyLen : PyColumns → Except PyExc Nat
  | PyColumns.noneCols =>
      Except.error (PyExc.pyError "object of type \x27NoneType\x27 has no len()")
  | PyColumns.items l => Except.ok l.length

/-- Message text of an exception, modelling the collaborator
`getSafeExString` (repository code outside `src/`), which renders an
exception as its human-readable message. -/
def excText : PyExc → String
  | PyExc.connError m => m
  | PyExc.genError m => m
  | PyExc.valError m => m
  | PyExc.engineExc e => e.msg
  | PyExc.pyError m => m

/-- `Replication.__init__` stores the database file path and owns the
connection; only the path is consulted by the rest of the module. -/
structure Replication where
  dbpath : String
deriving DecidableEq

namespace Replication

/-- The error message built by `Replication.__init__` on a failed open
(source lines 31-33), with the path and the engine text interpolated. -/
def connectErrMsg (dbpath engMsg : String) : String :=
  "error occurred while opening a replication " ++
    ("file \x27" ++ dbpath ++ "\x27 (\x27" ++ engMsg ++ "\x27)")

/-- `Replication.__init__` (source lines 24-33): call `sqlite3.connect` on
the path; an `OperationalError` is wrapped into a
`SqlmapConnectionException` carrying the path and the engine text; any other
exception class is not caught and propagates unwrapped.  `connect` abstracts
the whole `try` body (connect, set isolation level, open cursor). -/
def init {κ : Type} (connect : String → Except EngineError κ) (dbpath : String) :
    Except PyExc (Replication × κ) :=
  match connect dbpath with
  | Except.ok c => Except.ok (⟨dbpath⟩, c)
  | Except.error e =>
      if e.operational then
        Except.error (PyExc.connError (connectErrMsg dbpath e.msg))
      else
        Except.error (PyExc.engineExc e)

/-- `Replication.DataType` (source lines 35-48): a tag wrapping a sqlite
type name; stringifies to its name. -/
structure DataType where
  name : String
deriving DecidableEq

/-- `DataType.__str__`. -/
def DataType.str (d : DataType) : String := d.name

/-- The five class-level `DataType` constants (source lines 127-131). -/
def NULL : DataType := ⟨"NULL"⟩

/-- INTEGER sqlite data type constant. -/
def INTEGER : DataType := ⟨"INTEGER"⟩

/-- REAL sqlite data type constant. -/
def REAL : DataType := ⟨"REAL"⟩

/-- TEXT sqlite data type constant. -/
def TEXT : DataType := ⟨"TEXT"⟩

/-- BLOB sqlite data type constant. -/
def BLOB : DataType := ⟨"BLOB"⟩

/-- `Replication.Table`: back-reference to the owning `Replication`, the
sanitized table name, and the stored `columns` argument. -/
structure Table where
  parent : Replication
  name : String
  columns : PyColumns
deriving DecidableEq

/-- The error message built by `Table.execute` when the engine raises an
`OperationalError` (source lines 92-95). -/
def executeErrMsg (engMsg dbpath : String) : String :=
  ("problem occurred (\x27" ++ engMsg ++
      "\x27) while accessing sqlite database " ++ "located at \x27") ++
    dbpath ++
    ("\x27. Please make sure that " ++ "it\x27s not used by some other program")

/-- `Table.execute` (source lines 89-96): hand `(sql, parameters or [])` to
the engine cursor; the cursor-level result is discarded and the function
returns `None`; an `OperationalError` is re-raised as a
`SqlmapGenericException` naming the database path, any other engine
exception propagates unwrapped.  The trace records the single engine call. -/
def Table.execute {σ : Type} (eng : Engine σ) (t : Table) (st : σ)
    (sql : String) (parameters : Option (List Value)) : PyResult σ PyVal :=
  let ps := parameters.getD []
  match eng st sql ps with
  | Except.ok (st2, _r) => ⟨Except.ok PyVal.none, st2, [(sql, ps)]⟩
  | Except.error e =>
      if e.operational then
        ⟨Except.error (PyExc.genError (executeErrMsg e.msg t.parent.dbpath)),
          st, [(sql, ps)]⟩
      else
        ⟨Except.error (PyExc.engineExc e), st, [(sql, ps)]⟩

/-- The `DROP TABLE IF EXISTS "<name>"` text of source line 61. -/
def dropTableSQL (name : String) : String :=
  "DROP TABLE IF EXISTS \"" ++ name ++ "\""

/-- One column definition of the typed `CREATE TABLE` (source line 64):
the sanitized column name in double quotes, a space, the literal type. -/
def typedColDef (sanitize : String → String) (colname coltype : String) :
    String :=
  "\"" ++ sanitize colname ++ "\" " ++ coltype

/-- Python unpacking `colname, coltype = item` over an element of `columns`:
a pair unpacks to its components; a string of length two unpacks to its two
characters; anything else raises a ValueError. -/
def unpack2 : PyItem → Except PyExc (String × String)
  | PyItem.pair a b => Except.ok (a, b)
  | PyItem.str s =>
      match s.data with
      | [a, b] => Except.ok (String.singleton a, String.singleton b)
      | _ =>
          Except.error
            (PyExc.pyError "cannot unpack element into colname, coltype")

/-- The typed column definitions, in order, failing at the first element
that does not unpack (models the generator inside the join of source
line 64). -/
def buildTypedDefs (sanitize : String → String) :
    List PyItem → Except PyExc (List String)
  | [] => Except.ok []
  | it :: rest =>
      match unpack2 it with
      | Except.error e => Except.error e
      | Except.ok (n, ty) =>
          match buildTypedDefs sanitize rest with
          | Except.error e => Except.error e
          | Except.ok ds => Except.ok (typedColDef sanitize n ty :: ds)

/-- One column of the typeless `CREATE TABLE` (source line 68): the
sanitized name in double quotes, no type.  A pair element is passed through
the sanitizer unchanged (the sanitizer only rewrites strings) and rendered
with Python tuple formatting. -/
def typelessColDef (sanitize : String → String) : PyItem → String
  | PyItem.str s => "\"" ++ sanitize s ++ "\""
  | PyItem.pair a b => "\"(\x27" ++ a ++ "\x27, \x27" ++ b ++ "\x27)\""

/-- The `CREATE TABLE` text built by `Table.__init__` (source lines 62-69)
from the stored `columns`; iterating `None` raises a TypeError. -/
def buildCreateSQL (sanitize : String → String) (tname : String)
    (typeless : Bool) : PyColumns → Except PyExc String
  | PyColumns.noneCols =>
      Except.error (PyExc.pyError "\x27NoneType\x27 object is not iterable")
  | PyColumns.items l =>
      if typeless then
        Except.ok
          ("CREATE TABLE \"" ++ tname ++ "\" (" ++
            String.intercalate "," (l.map (typelessColDef sanitize)) ++ ")")
      else
        match buildTypedDefs sanitize l with
        | Except.error e => Except.error e
        | Except.ok ds =>
            Except.ok
              ("CREATE TABLE \"" ++ tname ++ "\" (" ++
                String.intercalate "," ds ++ ")")

/-- The error message built by `Table.__init__` when creation fails
(source lines 70-73). -/
def initErrMsg (exMsg dbpath : String) : String :=
  ("problem occurred (\x27" ++ exMsg ++
      "\x27) while initializing the sqlite database " ++ "located at \x27") ++
    dbpath ++ "\x27"

/-- The `try` body of `Table.__init__` (source lines 61-69): execute the
DROP, then build and execute the CREATE.  Any failure (from `execute` or
from evaluating the f-string over `columns`) aborts the body. -/
def Table.initBody {σ : Type} (sanitize : String → String) (eng : Engine σ)
    (t : Table) (typeless : Bool) (st : σ) : PyResult σ PyVal :=
  let r1 := Table.execute eng t st (dropTableSQL t.name) Option.none
  match r1.ret with
  | Except.error e => ⟨Except.error e, r1.st, r1.trace⟩
  | Except.ok _ =>
      match buildCreateSQL sanitize t.name typeless t.columns with
      | Except.error e => ⟨Except.error e, r1.st, r1.trace⟩
      | Except.ok sql =>
          let r2 := Table.execute eng t r1.st sql Option.none
          ⟨r2.ret, r2.st, r1.trace ++ r2.trace⟩

/-- `Table.__init__` (source lines 55-73): store the parent, the sanitized
name and the columns; when `create` is set, run the DROP+CREATE body and
catch EVERY exception (`except Exception`), re-raising it as a
`SqlmapGenericException` naming the database file path. -/
def Table.init {σ : Type} (sanitize : String → String) (eng : Engine σ)
    (parent : Replication) (name : String) (columns : PyColumns)
    (create : Bool) (typeless : Bool) (st : σ) : PyResult σ Table :=
  let t : Table := ⟨parent, sanitize name, columns⟩
  if create then
    let r := Table.initBody sanitize eng t typeless st
    match r.ret with
    | Except.ok _ => ⟨Except.ok t, r.st, r.trace⟩
    | Except.error e =>
        ⟨Except.error
            (PyExc.genError (initErrMsg (excText e) parent.dbpath)),
          r.st, r.trace⟩
  else ⟨Except.ok t, st, []⟩

/-- The comma-joined positional placeholders of source line 82:
Python `",".join(["?"] * n)`. -/
def placeholders (n : Nat) : String :=
  String.intercalate "," (List.replicate n "?")

/-- The `INSERT INTO "<name>" VALUES (...)` text of source lines 81-83;
it depends only on the table name and the number of values. -/
def insertSQL (name : String) (n : Nat) : String :=
  "INSERT INTO \"" ++ name ++ "\" VALUES (" ++ placeholders n ++ ")"

/-- The ValueError message of source line 86. -/
def wrongColumnsMsg : String :=
  "wrong number of columns used in replicating insert"

/-- `Table.insert` (source lines 75-87): when the arity matches the declared
columns, execute one parameterized INSERT binding `safechardecode values`;
otherwise raise a `SqlmapValueException` without touching the engine. -/
def Table.insert {σ : Type} (safechardecode : List Value → List Value)
    (eng : Engine σ) (t : Table) (values : List Value) (st : σ) :
    PyResult σ PyVal :=
  match pyLen t.columns with
  | Except.error e => ⟨Except.error e, st, []⟩
  | Except.ok n =>
      if values.length = n then
        Table.execute eng t st (insertSQL t.name values.length)
          (Option.some (safechardecode values))
      else ⟨Except.error (PyExc.valError wrongColumnsMsg), st, []⟩

/-- `Table.beginTransaction` (source lines 98-103). -/
def Table.beginTransaction {σ : Type} (eng : Engine σ) (t : Table) (st : σ) :
    PyResult σ PyVal :=
  Table.execute eng t st "BEGIN TRANSACTION" Option.none

/-- `Table.endTransaction` (source lines 105-106). -/
def Table.endTransaction {σ : Type} (eng : Engine σ) (t : Table) (st : σ) :
    PyResult σ PyVal :=
  Table.execute eng t st "END TRANSACTION" Option.none

/-- The SELECT text built by `Table.select` (source lines 112-114): the
table name is interpolated WITHOUT quotes, and a truthy condition is
appended with no space before the WHERE keyword. -/
def selectSQL (name : String) (condition : Option String) : String :=
  let base := "SELECT * FROM " ++ name
  if pyTruthy condition then base ++ "WHERE " ++ condition.getD "" else base

/-- `Table.select` (source lines 108-115): build the SELECT text and return
the value of `execute` on it. -/
def Table.select {σ : Type} (eng : Engine σ) (t : Table)
    (condition : Option String) (st : σ) : PyResult σ PyVal :=
  Table.execute eng t st (selectSQL t.name condition) Option.none

/-- `Replication.createTable` (source lines 117-121): construct a `Table`
bound to this connection with `create = true`. -/
def createTable {σ : Type} (sanitize : String → String) (eng : Engine σ)
    (r : Replication) (tblname : String) (columns : PyColumns)
    (typeless : Bool) (st : σ) : PyResult σ Table :=
  Table.init sanitize eng r tblname columns true typeless st

end Replication

/-- Modelled from the spec: the abstract state of the embedded database
(an external collaborator): each table name is either absent or carries its
list of column definitions and its rows. -/
def DB : Type := String → Option (List String × List (List Value))

/-- The two statement shapes `Table.__init__` issues, in structured form. -/
inductive ReplStmt where
  | dropIfExists (n : String)
  | createT (n : String) (colDefs : List String)
deriving DecidableEq

/-- The SQL text of a structured statement, matching the f-strings of
source lines 61-69 (typed column definitions already rendered). -/
def renderStmt : ReplStmt → String
  | ReplStmt.dropIfExists n => Replication.dropTableSQL n
  | ReplStmt.createT n ds =>
      "CREATE TABLE \"" ++ n ++ "\" (" ++ String.intercalate "," ds ++ ")"

/-- Modelled from the spec: the engine semantics of the two statements —
`DROP TABLE IF EXISTS` unconditionally removes the table if present, and
`CREATE TABLE` installs a fresh empty table with the given columns. -/
def applyStmt : ReplStmt → DB → DB
  | ReplStmt.dropIfExists n, db =>
      fun m => if m = n then Option.none else db m
  | ReplStmt.createT n ds, db =>
      fun m => if m = n then Option.some (ds, []) else db m

/-- Run a statement list left to right over a database state. -/
def applyStmts (l : List ReplStmt) (db : DB) : DB :=
  l.foldl (fun d s => applyStmt s d) db

/-- An engine on which every statement succeeds and yields no rows. -/
def okEngine : Engine Unit := fun st _ _ => Except.ok (st, PyVal.none)

/-- An engine that yields the given cursor-level result for every
statement. -/
def rowsEngine (rows : List (List Value)) : Engine Unit :=
  fun st _ _ => Except.ok (st, PyVal.cursor rows)

/-- An engine that raises the given exception on every statement. -/
def constErrEngine (e : EngineError) : Engine Unit :=
  fun _ _ _ => Except.error e

/-- A sqlite3 exception that is not an OperationalError (an
IntegrityError as raised on a UNIQUE violation). -/
def integrityErr : EngineError :=
  ⟨false, "UNIQUE constraint failed: users.id"⟩

/-- A concrete replication handle used in concrete evaluations. -/
def demoRepl : Replication := ⟨"results.sqlite3"⟩

/-- A concrete table over `demoRepl` used in concrete evaluations. -/
def demoTable : Replication.Table :=
  ⟨demoRepl, "users", PyColumns.items [PyItem.pair "id" "INTEGER"]⟩

open Replication

/-- `Table.execute` hands exactly one statement to the engine, whatever the
engine answers: `(sql, parameters or [])`. -/
theorem execute_trace {σ : Type} (eng : Engine σ) (t : Table) (st : σ)
    (sql : String) (parameters : Option (List Value)) :
    (Table.execute eng t st sql parameters).trace =
      [(sql, parameters.getD [])] := by
  simp only [Table.execute]
  cases eng st sql (parameters.getD []) with
  | ok p => obtain ⟨a, b⟩ := p; rfl
  | error e => cases he : e.operational <;> simp [he]

/-- On an engine success, `Table.execute` discards the cursor-level result
and returns Python `None`. -/
theorem execute_ok {σ : Type} (eng : Engine σ) (t : Table) (st st2 : σ)
    (sql : String) (parameters : Option (List Value)) (r : PyVal)
    (h : eng st sql (parameters.getD []) = Except.ok (st2, r)) :
    Table.execute eng t st sql parameters =
      ⟨Except.ok PyVal.none, st2, [(sql, parameters.getD [])]⟩ := by
  simp only [Table.execute, h]

/-- Character count of the inner loop of the placeholder join: each further
placeholder contributes one comma and one question mark. -/
theorem intercalate_go_count (c : Char) (acc : String) (n : Nat) :
    (String.intercalate.go acc "," (List.replicate n "?")).data.count c =
      acc.data.count c + n * (List.count c [',', '?']) := by
  induction n generalizing acc with
  | zero => simp [String.intercalate.go]
  | succ k ih =>
      rw [List.replicate_succ]
      rw [String.intercalate.go]
      rw [ih]
      simp [String.data_append, List.count_append, List.count_cons]
      ring

/-- The placeholder string of `insert` contains exactly `n` question
marks. -/
theorem placeholders_count_qmark (n : Nat) :
    (placeholders n).data.count '?' = n := by
  cases n with
  | zero => simp [placeholders, String.intercalate]
  | succ k =>
      rw [placeholders, List.replicate_succ, String.intercalate,
        intercalate_go_count]
      simp
      omega

/-- The placeholder string of `insert` contains no double-quote
character. -/
theorem placeholders_count_quote (n : Nat) :
    (placeholders n).data.count '\"' = 0 := by
  cases n with
  | zero => simp [placeholders, String.intercalate]
  | succ k =>
      rw [placeholders, List.replicate_succ, String.intercalate,
        intercalate_go_count]
      simp

/-- Claim C1: for a table with declared column sequence `cols` and a value
sequence of a different length, `insert` raises the ValueError-kind
condition (whose message begins with the text "wrong number of columns"),
hands nothing to the engine, and leaves the engine state unchanged. -/
theorem C1_insert_wrong_arity_rejected {σ : Type}
    (safechardecode : List Value → List Value) (eng : Engine σ)
    (parent : Replication) (nm : String) (cols : List PyItem)
    (values : List Value) (st : σ)
    (h : values.length ≠ cols.length) :
    Table.insert safechardecode eng ⟨parent, nm, PyColumns.items cols⟩
        values st =
      ⟨Except.error (PyExc.valError wrongColumnsMsg), st, []⟩ ∧
    wrongColumnsMsg =
      "wrong number of columns" ++ " used in replicating insert" := by
  refine ⟨?_, rfl⟩
  simp only [Table.insert, pyLen, if_neg h]

/-- Witness for C1 at a concrete mismatch: zero values against one declared
column. -/
theorem C1_insert_wrong_arity_rejected_witness :
    Table.insert (fun v => v) okEngine demoTable [] () =
      ⟨Except.error (PyExc.valError wrongColumnsMsg), (), []⟩ ∧
    wrongColumnsMsg =
      "wrong number of columns" ++ " used in replicating insert" :=
  C1_insert_wrong_arity_rejected (fun v => v) okEngine demoRepl "users"
    [PyItem.pair "id" "INTEGER"] [] () (by decide)

/-- Claim C2: for a table with declared columns `cols` and a matching value
sequence, `insert` hands exactly one INSERT statement to the engine, whose
text consists of the quoted table name and one positional placeholder per
value, binding `safechardecode values` as the parameters; the statement text
is a function of the length of the values alone, so the values are never
interpolated into the SQL text. -/
theorem C2_insert_parameterized {σ : Type}
    (safechardecode : List Value → List Value) (eng : Engine σ)
    (parent : Replication) (nm : String) (cols : List PyItem)
    (values values2 : List Value) (st st2 : σ)
    (h : values.length = cols.length) (h2 : values2.length = values.length) :
    (Table.insert safechardecode eng ⟨parent, nm, PyColumns.items cols⟩
        values st).trace =
      [(insertSQL nm values.length, safechardecode values)] ∧
    insertSQL nm values.length =
      "INSERT INTO \"" ++ nm ++ "\" VALUES (" ++
        placeholders values.length ++ ")" ∧
    (placeholders values.length).data.count '?' = values.length ∧
    (Table.insert safechardecode eng ⟨parent, nm, PyColumns.items cols⟩
          values2 st2).trace.map Prod.fst =
      (Table.insert safechardecode eng ⟨parent, nm, PyColumns.items cols⟩
          values st).trace.map Prod.fst := by
  have hv : Table.insert safechardecode eng
      ⟨parent, nm, PyColumns.items cols⟩ values st =
      Table.execute eng ⟨parent, nm, PyColumns.items cols⟩ st
        (insertSQL nm values.length)
        (Option.some (safechardecode values)) := by
    simp only [Table.insert, pyLen, if_pos h]
  have hv2 : Table.insert safechardecode eng
      ⟨parent, nm, PyColumns.items cols⟩ values2 st2 =
      Table.execute eng ⟨parent, nm, PyColumns.items cols⟩ st2
        (insertSQL nm values2.length)
        (Option.some (safechardecode values2)) := by
    simp only [Table.insert, pyLen, if_pos (h2.trans h)]
  refine ⟨?_, ?_, placeholders_count_qmark values.length, ?_⟩
  · rw [hv, execute_trace]
    simp
  · simp [insertSQL, String.append_assoc]
  · rw [hv, hv2, execute_trace, execute_trace, h2]
    simp

/-- Witness for C2 at a concrete matching insert of one value. -/
theorem C2_insert_parameterized_witness :
    (Table.insert (fun v => v) okEngine demoTable [Value.int 1] ()).trace =
      [(insertSQL "users" [Value.int 1].length, [Value.int 1])] ∧
    insertSQL "users" [Value.int 1].length =
      "INSERT INTO \"" ++ "users" ++ "\" VALUES (" ++
        placeholders [Value.int 1].length ++ ")" ∧
    (placeholders [Value.int 1].length).data.count '?' =
      [Value.int 1].length ∧
    (Table.insert (fun v => v) okEngine demoTable
          [Value.int 2] ()).trace.map Prod.fst =
      (Table.insert (fun v => v) okEngine demoTable
          [Value.int 1] ()).trace.map Prod.fst :=
  C2_insert_parameterized (fun v => v) okEngine demoRepl "users"
    [PyItem.pair "id" "INTEGER"] [Value.int 1] [Value.int 2] () ()
    (by decide) (by decide)

/-- Claim C3: `select` builds and executes the literal text
"SELECT * FROM " ++ name ++ "WHERE " ++ condition for a non-empty condition
(the condition segment follows the table name with no space before the
WHERE keyword), and exactly "SELECT * FROM " ++ name without one. -/
theorem C3_select_sql_concatenation {σ : Type} (eng : Engine σ)
    (parent : Replication) (nm : String) (cols : PyColumns)
    (c : String) (st st2 : σ) (h : c ≠ "") :
    (Table.select eng ⟨parent, nm, cols⟩ (Option.some c) st).trace =
      [("SELECT * FROM " ++ nm ++ "WHERE " ++ c, [])] ∧
    (Table.select eng ⟨parent, nm, cols⟩ Option.none st2).trace =
      [("SELECT * FROM " ++ nm, [])] := by
  constructor
  · rw [Table.select, execute_trace]
    simp [selectSQL, pyTruthy, h, String.append_assoc]
  · rw [Table.select, execute_trace]
    simp [selectSQL, pyTruthy]

/-- Witness for C3 at the concrete condition of the spec example. -/
theorem C3_select_sql_concatenation_witness :
    (Table.select okEngine demoTable (Option.some "id=1") ()).trace =
      [("SELECT * FROM " ++ "users" ++ "WHERE " ++ "id=1", [])] ∧
    (Table.select okEngine demoTable Option.none ()).trace =
      [("SELECT * FROM " ++ "users", [])] :=
  C3_select_sql_concatenation okEngine demoRepl "users"
    (PyColumns.items [PyItem.pair "id" "INTEGER"]) "id=1" () ()
    (by decide)

/-- Claim C4, code evaluation: `Table.execute` has no return statement, so
`select` returns Python `None` even though the engine yielded a non-`None`
cursor-level result for the executed SELECT: the engine result is discarded
by this layer, not returned to the caller. -/
theorem C4_select_returns_none_not_cursor :
    (Table.select (rowsEngine [[Value.int 1]]) demoTable Option.none ()).ret =
      Except.ok PyVal.none ∧
    rowsEngine [[Value.int 1]] () (selectSQL "users" Option.none) [] =
      Except.ok ((), PyVal.cursor [[Value.int 1]]) ∧
    PyVal.cursor [[Value.int 1]] ≠ PyVal.none :=
  ⟨rfl, rfl, by decide⟩

/-- Claim C5, counterexample: a sqlite3 engine exception that is not an
OperationalError (here an IntegrityError) is NOT caught by
`Table.execute`: it escapes unwrapped instead of being re-raised as a
GenericError-kind condition. -/
theorem C5_counterexample_nonoperational_escapes :
    (Table.execute (constErrEngine integrityErr) demoTable ()
        "INSERT INTO \"users\" VALUES (?)"
        (Option.some [Value.int 1])).ret =
      Except.error (PyExc.engineExc integrityErr) := by
  simp [Table.execute, constErrEngine, integrityErr]

/-- Claim C5, amended: `Table.execute` hands the statement to the engine exactly
once (no retry); an OperationalError is re-raised as a GenericError-kind
condition whose message names the database file path and advises that the
file may be used by another program, while any other engine exception
propagates unwrapped; no outcome is silently swallowed. -/
theorem C5_execute_error_translation {σ : Type} (eng : Engine σ)
    (t : Table) (st : σ) (sql : String) (parameters : Option (List Value))
    (e : EngineError)
    (h : eng st sql (parameters.getD []) = Except.error e) :
    (Table.execute eng t st sql parameters).trace =
      [(sql, parameters.getD [])] ∧
    (e.operational = true →
      (Table.execute eng t st sql parameters).ret =
        Except.error
          (PyExc.genError (executeErrMsg e.msg t.parent.dbpath)) ∧
      executeErrMsg e.msg t.parent.dbpath =
        ("problem occurred (\x27" ++ e.msg ++
            "\x27) while accessing sqlite database " ++ "located at \x27") ++
          t.parent.dbpath ++
          ("\x27. Please make sure that " ++
            "it\x27s not used by some other program")) ∧
    (e.operational = false →
      (Table.execute eng t st sql parameters).ret =
        Except.error (PyExc.engineExc e)) := by
  refine ⟨execute_trace eng t st sql parameters, ?_, ?_⟩
  · intro hop
    refine ⟨?_, rfl⟩
    simp [Table.execute, h, hop]
  · intro hop
    simp [Table.execute, h, hop]

/-- Witness for C5 (amended) at a concrete locked-database
OperationalError. -/
theorem C5_execute_error_translation_witness :
    (Table.execute (constErrEngine ⟨true, "database is locked"⟩) demoTable ()
        "BEGIN TRANSACTION" Option.none).trace =
      [("BEGIN TRANSACTION", [])] ∧
    ((true : Bool) = true →
      (Table.execute (constErrEngine ⟨true, "database is locked"⟩)
            demoTable () "BEGIN TRANSACTION" Option.none).ret =
        Except.error
          (PyExc.genError
            (executeErrMsg "database is locked" "results.sqlite3")) ∧
      executeErrMsg "database is locked" "results.sqlite3" =
        ("problem occurred (\x27" ++ "database is locked" ++
            "\x27) while accessing sqlite database " ++ "located at \x27") ++
          "results.sqlite3" ++
          ("\x27. Please make sure that " ++
            "it\x27s not used by some other program")) ∧
    ((true : Bool) = false →
      (Table.execute (constErrEngine ⟨true, "database is locked"⟩)
            demoTable () "BEGIN TRANSACTION" Option.none).ret =
        Except.error (PyExc.engineExc ⟨true, "database is locked"⟩)) :=
  C5_execute_error_translation (constErrEngine ⟨true, "database is locked"⟩)
    demoTable () "BEGIN TRANSACTION" Option.none
    ⟨true, "database is locked"⟩ rfl

/-- Claim C6: when the engine cannot open the database file (sqlite3 reports
open failures as OperationalError), `Replication.__init__` raises the
ConnectionError-kind condition carrying the engine error text (and the
path), never a GenericError-kind condition and never an unwrapped engine
exception. -/
theorem C6_open_failure_connection_error {κ : Type}
    (connect : String → Except EngineError κ) (dbpath : String)
    (e : EngineError) (h : connect dbpath = Except.error e)
    (hop : e.operational = true) :
    Replication.init connect dbpath =
      Except.error
        (PyExc.connError (connectErrMsg dbpath e.msg)) ∧
    connectErrMsg dbpath e.msg =
      ("error occurred while opening a replication " ++ "file \x27" ++
          dbpath ++ "\x27 (\x27") ++
        e.msg ++ "\x27)" ∧
    (∀ m, Replication.init connect dbpath ≠
        Except.error (PyExc.genError m)) ∧
    (∀ e2, Replication.init connect dbpath ≠
        Except.error (PyExc.engineExc e2)) := by
  have hini : Replication.init connect dbpath =
      Except.error (PyExc.connError (connectErrMsg dbpath e.msg)) := by
    simp [Replication.init, h, hop]
  refine ⟨hini, ?_, ?_, ?_⟩
  · apply String.ext
    simp [connectErrMsg, String.data_append, List.append_assoc]
  · intro m
    rw [hini]
    simp
  · intro e2
    rw [hini]
    simp

/-- Witness for C6 at the concrete failure of opening a directory path. -/
theorem C6_open_failure_connection_error_witness :
    Replication.init
        (fun _ =>
          (Except.error ⟨true, "unable to open database file"⟩ :
            Except EngineError Unit))
        "/tmp" =
      Except.error
        (PyExc.connError
          (connectErrMsg "/tmp" "unable to open database file")) ∧
    connectErrMsg "/tmp" "unable to open database file" =
      ("error occurred while opening a replication " ++ "file \x27" ++
          "/tmp" ++ "\x27 (\x27") ++
        "unable to open database file" ++ "\x27)" ∧
    (∀ m, Replication.init
        (fun _ =>
          (Except.error ⟨true, "unable to open database file"⟩ :
            Except EngineError Unit))
        "/tmp" ≠
      Except.error (PyExc.genError m)) ∧
    (∀ e2, Replication.init
        (fun _ =>
          (Except.error ⟨true, "unable to open database file"⟩ :
            Except EngineError Unit))
        "/tmp" ≠
      Except.error (PyExc.engineExc e2)) :=
  C6_open_failure_connection_error
    (fun _ =>
      (Except.error ⟨true, "unable to open database file"⟩ :
        Except EngineError Unit))
    "/tmp" ⟨true, "unable to open database file"⟩ rfl rfl

/-- A typed `(name, type)` column list renders, in order, to the quoted
sanitized name followed by the literal type string. -/
theorem buildTypedDefs_pairs (sanitize : String → String)
    (l : List (String × String)) :
    buildTypedDefs sanitize (l.map fun p => PyItem.pair p.1 p.2) =
      Except.ok (l.map fun p => typedColDef sanitize p.1 p.2) := by
  induction l with
  | nil => rfl
  | cons a t ih => simp [buildTypedDefs, unpack2, ih]

/-- A successful `createTable` over a typed column list issues exactly the
DROP followed by the CREATE and returns the table handle. -/
theorem createTable_typed_run (sanitize : String → String)
    (r : Replication) (n : String) (c : List (String × String)) :
    createTable sanitize okEngine r n
        (PyColumns.items (c.map fun p => PyItem.pair p.1 p.2)) false () =
      ⟨Except.ok ⟨r, sanitize n,
          PyColumns.items (c.map fun p => PyItem.pair p.1 p.2)⟩, (),
        [(dropTableSQL (sanitize n), []),
         ("CREATE TABLE \"" ++ sanitize n ++ "\" (" ++
            String.intercalate ","
              (c.map fun p => typedColDef sanitize p.1 p.2) ++ ")",
          [])]⟩ := by
  simp [createTable, Table.init, Table.initBody, Table.execute, okEngine,
    buildCreateSQL, buildTypedDefs_pairs]

/-- Claim C7: the two `createTable` calls for the same name issue exactly
DROP TABLE IF EXISTS, CREATE TABLE, DROP TABLE IF EXISTS, CREATE TABLE for
the sanitized name, and running those statements under the engine
semantics from any starting database leaves the name mapped to exactly the
second column specification with no rows, every other table untouched. -/
theorem C7_createTable_twice_leaves_second_schema
    (sanitize : String → String) (r : Replication) (n : String)
    (c1 c2 : List (String × String)) (db : DB) :
    (createTable sanitize okEngine r n
          (PyColumns.items (c1.map fun p => PyItem.pair p.1 p.2))
          false ()).trace ++
      (createTable sanitize okEngine r n
          (PyColumns.items (c2.map fun p => PyItem.pair p.1 p.2))
          false
          (createTable sanitize okEngine r n
              (PyColumns.items (c1.map fun p => PyItem.pair p.1 p.2))
              false ()).st).trace =
      ([ReplStmt.dropIfExists (sanitize n),
        ReplStmt.createT (sanitize n)
          (c1.map fun p => typedColDef sanitize p.1 p.2),
        ReplStmt.dropIfExists (sanitize n),
        ReplStmt.createT (sanitize n)
          (c2.map fun p => typedColDef sanitize p.1 p.2)].map
        fun s => (renderStmt s, ([] : List Value))) ∧
    applyStmts
        [ReplStmt.dropIfExists (sanitize n),
         ReplStmt.createT (sanitize n)
           (c1.map fun p => typedColDef sanitize p.1 p.2),
         ReplStmt.dropIfExists (sanitize n),
         ReplStmt.createT (sanitize n)
           (c2.map fun p => typedColDef sanitize p.1 p.2)] db =
      fun m =>
        if m = sanitize n then
          Option.some (c2.map fun p => typedColDef sanitize p.1 p.2, [])
        else db m := by
  constructor
  · rw [createTable_typed_run]
    dsimp only
    rw [createTable_typed_run]
    simp [renderStmt, dropTableSQL]
  · funext m
    by_cases hm : m = sanitize n <;>
      simp [applyStmts, applyStmt, hm]

/-- A successful `createTable` in typeless mode over a name list issues
exactly the DROP followed by the typeless CREATE. -/
theorem createTable_typeless_run (sanitize : String → String)
    (r : Replication) (n : String) (names : List String) :
    Table.init sanitize okEngine r n
        (PyColumns.items (names.map PyItem.str)) true true () =
      ⟨Except.ok ⟨r, sanitize n,
          PyColumns.items (names.map PyItem.str)⟩, (),
        [(dropTableSQL (sanitize n), []),
         ("CREATE TABLE \"" ++ sanitize n ++ "\" (" ++
            String.intercalate ","
              (names.map fun s => "\"" ++ sanitize s ++ "\"") ++ ")",
          [])]⟩ := by
  have hcomp : typelessColDef sanitize ∘ PyItem.str =
      fun s => "\"" ++ sanitize s ++ "\"" := by
    funext s
    rfl
  have hmap : List.map (typelessColDef sanitize) (names.map PyItem.str) =
      names.map fun s => "\"" ++ sanitize s ++ "\"" := by
    rw [List.map_map, hcomp]
  simp [Table.init, Table.initBody, Table.execute, okEngine,
    buildCreateSQL, hmap]

/-- Claim C8: with `create = true`, the typeless CREATE TABLE lists only the
quoted sanitized column names, comma-joined, with no type string after any
column, while the typed CREATE TABLE renders every column as its quoted
sanitized name, a space, and its literal type string. -/
theorem C8_create_table_column_rendering (sanitize : String → String)
    (r : Replication) (nm : String) (names : List String)
    (cols : List (String × String)) :
    (Table.init sanitize okEngine r nm
          (PyColumns.items (names.map PyItem.str)) true true ()).trace =
      [(dropTableSQL (sanitize nm), []),
       ("CREATE TABLE \"" ++ sanitize nm ++ "\" (" ++
          String.intercalate ","
            (names.map fun s => "\"" ++ sanitize s ++ "\"") ++ ")",
        [])] ∧
    (Table.init sanitize okEngine r nm
          (PyColumns.items (cols.map fun p => PyItem.pair p.1 p.2))
          true false ()).trace =
      [(dropTableSQL (sanitize nm), []),
       ("CREATE TABLE \"" ++ sanitize nm ++ "\" (" ++
          String.intercalate ","
            (cols.map fun p => "\"" ++ sanitize p.1 ++ "\" " ++ p.2) ++
          ")",
        [])] := by
  constructor
  · rw [createTable_typeless_run]
  · rw [show Table.init sanitize okEngine r nm
        (PyColumns.items (cols.map fun p => PyItem.pair p.1 p.2))
        true false () =
      createTable sanitize okEngine r nm
        (PyColumns.items (cols.map fun p => PyItem.pair p.1 p.2))
        false () from rfl]
    rw [createTable_typed_run]
    simp [typedColDef]

/-- Claim C9: the sanitized table name is wrapped in double quotes in the DROP,
CREATE and INSERT texts but interpolated without any quoting in the SELECT
text `select` executes: the SELECT adds no quote character around the name
while each of the other three statement shapes adds exactly two. -/
theorem C9_table_name_quoting_inconsistent {σ : Type} (eng : Engine σ)
    (parent : Replication) (nm : String) (cols : PyColumns) (st : σ)
    (n : Nat) (ds : List String) :
    (Table.select eng ⟨parent, nm, cols⟩ Option.none st).trace =
      [("SELECT * FROM " ++ nm, [])] ∧
    ("SELECT * FROM " ++ nm).data.count '\"' = nm.data.count '\"' ∧
    dropTableSQL nm = "DROP TABLE IF EXISTS " ++ ("\"" ++ nm ++ "\"") ∧
    (dropTableSQL nm).data.count '\"' = nm.data.count '\"' + 2 ∧
    insertSQL nm n =
      "INSERT INTO " ++ ("\"" ++ nm ++ "\"") ++
        (" VALUES (" ++ placeholders n ++ ")") ∧
    (insertSQL nm n).data.count '\"' = nm.data.count '\"' + 2 ∧
    renderStmt (ReplStmt.createT nm ds) =
      "CREATE TABLE " ++ ("\"" ++ nm ++ "\"") ++
        (" (" ++ String.intercalate "," ds ++ ")") ∧
    (renderStmt (ReplStmt.createT nm ds)).data.count '\"' =
      nm.data.count '\"' + 2 +
        (String.intercalate "," ds).data.count '\"' := by
  have hdrop : "DROP TABLE IF EXISTS \"".data =
      "DROP TABLE IF EXISTS ".data ++ "\"".data := by decide
  have hins : "INSERT INTO \"".data =
      "INSERT INTO ".data ++ "\"".data := by decide
  have hins2 : "\" VALUES (".data =
      "\"".data ++ " VALUES (".data := by decide
  have hcre : "CREATE TABLE \"".data =
      "CREATE TABLE ".data ++ "\"".data := by decide
  have hcre2 : "\" (".data = "\"".data ++ " (".data := by decide
  refine ⟨?_, ?_, ?_, ?_, ?_, ?_, ?_, ?_⟩
  · rw [Table.select, execute_trace]
    simp [selectSQL, pyTruthy]
  · have h0 : ("SELECT * FROM ".data.count '\"') = 0 := by decide
    simp [String.data_append, List.count_append, h0]
  · apply String.ext
    simp [dropTableSQL, String.data_append, hdrop, List.append_assoc]
  · have h1 : ("DROP TABLE IF EXISTS \"".data.count '\"') = 1 := by decide
    have h2 : ("\"".data.count '\"') = 1 := by decide
    simp [dropTableSQL, String.data_append, List.count_append, h1, h2]
  · apply String.ext
    simp [insertSQL, String.data_append, hins, hins2, List.append_assoc]
  · have h1 : ("INSERT INTO \"".data.count '\"') = 1 := by decide
    have h2 : ("\" VALUES (".data.count '\"') = 1 := by decide
    have h3 : (")".data.count '\"') = 0 := by decide
    simp [insertSQL, String.data_append, List.count_append, h1, h2, h3,
      placeholders_count_quote]
  · apply String.ext
    simp [renderStmt, String.data_append, hcre, hcre2, List.append_assoc]
  · have h1 : ("CREATE TABLE \"".data.count '\"') = 1 := by decide
    have h2 : ("\" (".data.count '\"') = 1 := by decide
    have h3 : (")".data.count '\"') = 0 := by decide
    simp [renderStmt, String.data_append, List.count_append, h1, h2, h3]
    omega

/-- Claim C10: `Table.__init__` catches every exception during creation, not only
engine-level ones: with `columns = None` (whatever the engine does), or
with an element that is not a `(name, type)` pair in typed mode,
construction raises the GenericError-kind condition whose message names the
database file path, instead of the underlying programming error. -/
theorem C10_init_wraps_all_exceptions {σ : Type}
    (sanitize : String → String) (eng : Engine σ) (parent : Replication)
    (nm : String) (typeless : Bool) (st : σ) :
    (∃ m, (Table.init sanitize eng parent nm PyColumns.noneCols true
          typeless st).ret =
        Except.error (PyExc.genError (initErrMsg m parent.dbpath))) ∧
    (Table.init sanitize okEngine parent nm
          (PyColumns.items [PyItem.str "colname"]) true false ()).ret =
      Except.error
        (PyExc.genError
          (initErrMsg "cannot unpack element into colname, coltype"
            parent.dbpath)) ∧
    (∀ em dp, ∃ a b, initErrMsg em dp = a ++ dp ++ b) := by
  have hu : unpack2 (PyItem.str "colname") =
      Except.error
        (PyExc.pyError "cannot unpack element into colname, coltype") :=
    rfl
  refine ⟨?_, ?_, ?_⟩
  · cases he : eng st (dropTableSQL (sanitize nm)) [] with
    | ok p =>
        obtain ⟨st2, rv⟩ := p
        refine ⟨"\x27NoneType\x27 object is not iterable", ?_⟩
        simp [Table.init, Table.initBody, Table.execute, he,
          buildCreateSQL, excText]
    | error e =>
        cases hop : e.operational with
        | true =>
            refine ⟨executeErrMsg e.msg parent.dbpath, ?_⟩
            simp [Table.init, Table.initBody, Table.execute, he, hop,
              excText]
        | false =>
            refine ⟨e.msg, ?_⟩
            simp [Table.init, Table.initBody, Table.execute, he, hop,
              excText]
  · simp [Table.init, Table.initBody, Table.execute, okEngine,
      buildCreateSQL, buildTypedDefs, hu, excText]
  · intro em dp
    exact ⟨"problem occurred (\x27" ++ em ++
        "\x27) while initializing the sqlite database " ++
        "located at \x27", "\x27", rfl⟩
